import Mathlib

/-!
Shallow embedding of the JustAI jobs backend (`src/server.js`, main snapshot)
for verification of its natural-language specification.

Modelling conventions:
* JSON response bodies are `JVal` trees; `res.json(x)` with no explicit status
  is status 200, `res.status(s).json(x)` is status `s`.
* A JS request-body string field is `Option String`: `none` is an absent field
  and JS falsiness (`!x`) of such a field holds for `none` and for `some ""`.
* SQL `NOW()` / token clocks are an explicit `now : Nat` parameter.
* The serialized JWT is modelled as its decoded form: a `Token` carries the
  payload and a signature, and the HMAC is idealized as the unforgeable pair
  (secret, payload), the standard symbolic model of a MAC.
* The `Authorization` header is modelled as its list of space-separated parts
  (`none` = header absent / falsy); a part is either a well-formed JWT
  (`HeaderPart.tok`) or any other string (`HeaderPart.junk`), since the code
  only ever splits the header on spaces and feeds part 1 to `jwt.verify`.
* SQL `SUM` over zero qualifying rows is `none` (NULL), and `COALESCE(x, 0)`
  is `Option.getD x 0`, mirroring the aggregate queries.
* `ORDER BY ... DESC` is `List.insertionSort` with the corresponding
  total/transitive "greater-or-equal" relation (SQL leaves tie order
  unspecified; insertion sort is one compliant refinement).
* Primary-key lookups (`LEFT JOIN ... ON ... = u.user_id`) take the first
  matching row, justified by key uniqueness.
-/

/-- JSON-ish values appearing in response bodies.  `jwt` stands for the
serialized token string the real server embeds in the login response. -/
inductive JVal where
  | nul : JVal
  | str : String → JVal
  | num : Int → JVal
  | bool : Bool → JVal
  | jwt : String × Nat × String × String × Nat → JVal
  | arr : List JVal → JVal
  | obj : List (String × JVal) → JVal

/-- An HTTP response: status code and JSON (or text, as `str`) body. -/
structure Response where
  status : Nat
  body : JVal

/-- JS falsiness of an optional string field: absent or empty. -/
def falsyO : Option String → Bool
  | none => true
  | some s => s.isEmpty

/-- JS `x || null` applied to an optional string column value. -/
def orNull (o : Option String) : Option String :=
  if falsyO o then none else o

/-- A row of the `Users` table, fields as used by the queries in server.js. -/
structure User where
  user_id : Nat
  name : String
  email : String
  password : String
  account_type : String
  role : Option String
  company : Option String
  status : String
  rating : Option Int
  profile_picture : Option String
  created_at : Nat
  modified_at : Nat

/-- A row of the `Jobs` table. -/
structure Job where
  job_id : Nat
  employer_id : Nat
  title : String
  description : String
  salary : Int
  job_type : String
  job_status : String
  created_at : Nat

/-- A row of the `Payments` table. -/
structure Payment where
  worker_id : Nat
  job_id : Nat
  hours_worked : Int
  amount : Int
  status : String

/-- A row of the `Reviews` table. -/
structure Review where
  reviewer_id : Nat
  reviewee_id : Nat
  comment : String
  rating : Int
  created_at : Nat

/-- A row of the `Testimonials` table. -/
structure Testimonial where
  user_id : Nat
  content : String
  to_display : Bool
  created_at : Nat

/-- A row of the `Applications` table. -/
structure Application where
  job_id : Nat
  worker_id : Nat
  status : String
  applied_at : Nat

/-- A row of the `ContactMessages` table. -/
structure ContactMessage where
  message_id : Nat
  user_id : Option Nat
  category : String
  email : String
  content : String
  status : String
  created_at : Nat
  modified_at : Nat

/-- The relational database state, plus the sequence source for the
`Users` primary key. -/
structure DB where
  users : List User
  jobs : List Job
  payments : List Payment
  reviews : List Review
  testimonials : List Testimonial
  applications : List Application
  contactMessages : List ContactMessage
  nextUserId : Nat

/-- JSON rendering of a nullable string column. -/
def jStrN : Option String → JVal
  | none => JVal.nul
  | some s => JVal.str s

/-- JSON rendering of a nullable numeric column. -/
def jNumN : Option Int → JVal
  | none => JVal.nul
  | some n => JVal.num n

/-- `TO_CHAR(ts, 'YYYY-MM-DD')`: abstract date rendering of a timestamp. -/
def dateStr (ts : Nat) : String := toString ts

/-- Body of the shape `{ message: m }` used by every error path. -/
def msgBody (m : String) : JVal := JVal.obj [("message", JVal.str m)]

/-- The request body of `POST /api/register`. -/
structure RegisterReq where
  account_type : Option String
  name : Option String
  email : Option String
  password : Option String
  company : Option String
  role : Option String

/-- `POST /api/register` (server.js lines 42-74): dynamic required-field
validation, duplicate-email check against `Users`, then
`INSERT ... status 'Active', created_at NOW(), modified_at NOW()`. -/
def register (body : RegisterReq) (now : Nat) (db : DB) : Response × DB :=
  if falsyO body.name || falsyO body.email || falsyO body.password
      || falsyO body.account_type then
    (⟨400, msgBody "Name, email, password, and account type are required."⟩, db)
  else if body.account_type == some "Employer"
      && (falsyO body.role || falsyO body.company) then
    (⟨400, msgBody "Role and Company are required for Employers."⟩, db)
  else if db.users.any (fun u => u.email == body.email.getD "") then
    (⟨400, msgBody "Email already registered."⟩, db)
  else
    let u : User :=
      { user_id := db.nextUserId
        account_type := body.account_type.getD ""
        name := body.name.getD ""
        email := body.email.getD ""
        password := body.password.getD ""
        company := orNull body.company
        role := orNull body.role
        status := "Active"
        rating := none
        profile_picture := none
        created_at := now
        modified_at := now }
    (⟨201, msgBody "User registered successfully."⟩,
      { db with users := db.users ++ [u], nextUserId := db.nextUserId + 1 })

/-- The JWT payload the login endpoint signs: user id, email, account type,
plus the expiry timestamp fixed by `expiresIn: '24h'`. -/
structure JwtPayload where
  user_id : Nat
  email : String
  account_type : String
  exp : Nat
deriving DecidableEq

/-- A signed token; `sig` is the idealized HMAC (secret, payload). -/
structure Token where
  payload : JwtPayload
  sig : String × JwtPayload
deriving DecidableEq

/-- `jwt.sign(payload, secret, { expiresIn: '24h' })`. -/
def jwtSign (secret : String) (user_id : Nat) (email account_type : String)
    (now : Nat) : Token :=
  let p : JwtPayload := ⟨user_id, email, account_type, now + 86400⟩
  ⟨p, (secret, p)⟩

/-- The serialized form of a token as it appears inside a JSON body. -/
def tokenJ (t : Token) : JVal :=
  JVal.jwt (t.sig.1, t.payload.user_id, t.payload.email,
    t.payload.account_type, t.payload.exp)

/-- The `user` object of a successful login response, exactly the projection
built at server.js lines 117-126. -/
def loginUserFields (u : User) : List (String × JVal) :=
  [ ("user_id", JVal.num u.user_id)
  , ("name", JVal.str u.name)
  , ("email", JVal.str u.email)
  , ("account_type", JVal.str u.account_type)
  , ("profile_picture", jStrN u.profile_picture)
  , ("rating", jNumN u.rating)
  , ("status", JVal.str u.status)
  , ("company", jStrN u.company) ]

/-- `POST /api/login` (server.js lines 83-133): select by email (the query
projects the password column too), compare plaintext passwords, and on
success sign a 24h token and return the public profile projection. -/
def login (email password : Option String) (secret : String) (now : Nat)
    (db : DB) : Response × DB :=
  if falsyO email || falsyO password then
    (⟨400, msgBody "Email and password are required."⟩, db)
  else
    let rows := db.users.filter (fun u => u.email == email.getD "")
    match rows.head? with
    | none => (⟨400, msgBody "Invalid email or password."⟩, db)
    | some dbUser =>
      if dbUser.password != password.getD "" then
        (⟨400, msgBody "Invalid email or password."⟩, db)
      else
        let tok := jwtSign secret dbUser.user_id dbUser.email
          dbUser.account_type now
        (⟨200, JVal.obj
          [ ("message", JVal.str "Login successful.")
          , ("token", tokenJ tok)
          , ("user", JVal.obj (loginUserFields dbUser)) ]⟩, db)

/-- A space-separated component of the `Authorization` header: either a
well-formed serialized JWT or any other string. -/
inductive HeaderPart where
  | tok : Token → HeaderPart
  | junk : String → HeaderPart
deriving DecidableEq

/-- JS falsiness of a header component (the empty string). -/
def falsyPart : HeaderPart → Bool
  | HeaderPart.tok _ => false
  | HeaderPart.junk s => s.isEmpty

/-- `jwt.verify(token, secret)` at time `now`: succeeds exactly when the
token parses, the idealized MAC matches the secret, and the expiry lies in
the future; otherwise it throws (here: `none`). -/
def jwtVerify (secret : String) (now : Nat) : HeaderPart → Option JwtPayload
  | HeaderPart.junk _ => none
  | HeaderPart.tok t =>
    if t.sig = (secret, t.payload) ∧ now < t.payload.exp then some t.payload
    else none

/-- `req.headers['authorization']?.split(' ')[1]` followed by the JS falsy
check `!token`: `none` when the header is absent, has no second component,
or that component is the empty string. -/
def tokenPart (auth : Option (List HeaderPart)) : Option HeaderPart :=
  match auth with
  | none => none
  | some parts =>
    match parts.get? 1 with
    | none => none
    | some p => if falsyPart p then none else some p

/-- SQL `SUM` over the listed column values: NULL (`none`) when no row
qualifies. -/
def sqlSum (l : List Int) : Option Int :=
  if l.isEmpty then none else some l.sum

/-- Worker dashboard aggregates (server.js lines 273-288):
`COALESCE(SUM(hours_worked), 0)`, `COALESCE(SUM(amount) FILTER (WHERE
status = 'Paid'), 0)`, `COALESCE(SUM(amount) FILTER (WHERE status =
'Pending'), 0)` over `Payments WHERE worker_id = $1`. -/
def workerMetrics (db : DB) (uid : Nat) : Int × Int × Int :=
  let pays := db.payments.filter (fun p => p.worker_id == uid)
  ( (sqlSum (pays.map Payment.hours_worked)).getD 0
  , (sqlSum ((pays.filter (fun p => p.status == "Paid")).map
      Payment.amount)).getD 0
  , (sqlSum ((pays.filter (fun p => p.status == "Pending")).map
      Payment.amount)).getD 0 )

/-- Employer dashboard aggregates (server.js lines 292-299): sums over
`Payments p JOIN Jobs j ON p.job_id = j.job_id WHERE j.employer_id = $1`. -/
def employerMetrics (db : DB) (uid : Nat) : Int × Int :=
  let joined := db.payments.flatMap (fun p =>
    (db.jobs.filter (fun j =>
      p.job_id == j.job_id && j.employer_id == uid)).map (fun _ => p))
  ( (sqlSum (joined.map Payment.hours_worked)).getD 0
  , (sqlSum ((joined.filter (fun p => p.status == "Paid")).map
      Payment.amount)).getD 0 )

/-- `GET /api/users/me` (server.js lines 236-315, the first and therefore
active registration of this route).  The whole body, `jwt.verify`
included, sits in one `try`, so a verification failure is caught and
answered with the generic 500, not 403; an absent header is answered 401
before the `try`. -/
def usersMe (secret : String) (now : Nat) (auth : Option (List HeaderPart))
    (db : DB) : Response × DB :=
  match auth with
  | none => (⟨401, msgBody "Authorization header missing."⟩, db)
  | some parts =>
    match parts.get? 1 with
    | none => (⟨500, msgBody "Server error fetching dashboard profile."⟩, db)
    | some part =>
      match jwtVerify secret now part with
      | none => (⟨500, msgBody "Server error fetching dashboard profile."⟩, db)
      | some payload =>
        let uid := payload.user_id
        match (db.users.filter (fun u => u.user_id == uid)).head? with
        | none => (⟨404, msgBody "User not found."⟩, db)
        | some u =>
          let base : List (String × JVal) :=
            [ ("name", JVal.str u.name)
            , ("role", jStrN u.role)
            , ("company", jStrN u.company)
            , ("rating", jNumN u.rating)
            , ("account_type", JVal.str u.account_type) ]
          if u.account_type == "Employer" then
            let m := employerMetrics db uid
            (⟨200, JVal.obj (base ++
              [ ("total_hours_worked", JVal.num m.1)
              , ("total_jobs_paid", JVal.num m.2) ])⟩, db)
          else
            let m := workerMetrics db uid
            (⟨200, JVal.obj (base ++
              [ ("total_hours_worked", JVal.num m.1)
              , ("total_earnings", JVal.num m.2.1)
              , ("pending_payment", JVal.num m.2.2) ])⟩, db)

/-- The `authenticateToken` middleware (server.js lines 324-336): 401 when
the extracted token is falsy, 403 when `jwt.verify` reports an error. -/
def authTok (secret : String) (now : Nat)
    (auth : Option (List HeaderPart)) : Except Response JwtPayload :=
  match tokenPart auth with
  | none => Except.error ⟨401, msgBody "No token provided"⟩
  | some part =>
    match jwtVerify secret now part with
    | none => Except.error ⟨403, msgBody "Invalid token"⟩
    | some p => Except.ok p

/-- First user row matching a primary key, rendered as the LEFT-JOINed
`u.name` (NULL when unmatched). -/
def userNameJ (db : DB) (uid : Nat) : JVal :=
  match (db.users.filter (fun u => u.user_id == uid)).head? with
  | none => JVal.nul
  | some u => JVal.str u.name

/-- LEFT-JOINed `u.company` (NULL when unmatched or NULL in the row). -/
def userCompanyJ (db : DB) (uid : Nat) : JVal :=
  match (db.users.filter (fun u => u.user_id == uid)).head? with
  | none => JVal.nul
  | some u => jStrN u.company

/-- `ORDER BY created_at DESC` on reviews. -/
def revCreatedGe (a b : Review) : Prop := b.created_at ≤ a.created_at

instance : DecidableRel revCreatedGe := fun a b =>
  inferInstanceAs (Decidable (b.created_at ≤ a.created_at))

/-- `GET /api/users/me/reviews` (server.js lines 339-361, the active
registration, guarded by `authenticateToken`). -/
def usersMeReviews (secret : String) (now : Nat)
    (auth : Option (List HeaderPart)) (db : DB) : Response × DB :=
  match authTok secret now auth with
  | Except.error r => (r, db)
  | Except.ok payload =>
    let uid := payload.user_id
    let revs := List.insertionSort revCreatedGe
      (db.reviews.filter (fun r => r.reviewee_id == uid))
    (⟨200, JVal.arr (revs.map (fun r => JVal.obj
      [ ("review_body", JVal.str r.comment)
      , ("rating", JVal.num r.rating)
      , ("reviewer_name", userNameJ db r.reviewer_id)
      , ("review_date", JVal.str (dateStr r.created_at)) ]))⟩, db)

/-- `ORDER BY applied_at DESC` on applications. -/
def appAppliedGe (a b : Application) : Prop := b.applied_at ≤ a.applied_at

instance : DecidableRel appAppliedGe := fun a b =>
  inferInstanceAs (Decidable (b.applied_at ≤ a.applied_at))

/-- LEFT-JOINed job row for an application (first match on the key). -/
def jobOf (db : DB) (a : Application) : Option Job :=
  (db.jobs.filter (fun j => j.job_id == a.job_id)).head?

/-- `GET /api/users/me/applications` (server.js lines 369-398).  The falsy
token check happens before the `try`, so it yields 401; `jwt.verify`
failure inside the `try` is caught and yields 500. -/
def usersMeApplications (secret : String) (now : Nat)
    (auth : Option (List HeaderPart)) (db : DB) : Response × DB :=
  match tokenPart auth with
  | none => (⟨401, msgBody "Unauthorized. No token provided."⟩, db)
  | some part =>
    match jwtVerify secret now part with
    | none =>
      (⟨500, msgBody "Server error fetching worker applications."⟩, db)
    | some payload =>
      let uid := payload.user_id
      let apps := List.insertionSort appAppliedGe
        (db.applications.filter (fun a => a.worker_id == uid))
      (⟨200, JVal.arr (apps.map (fun a => JVal.obj
        [ ("job_title", match jobOf db a with
            | none => JVal.nul | some j => JVal.str j.title)
        , ("salary", match jobOf db a with
            | none => JVal.nul | some j => JVal.num j.salary)
        , ("job_description", match jobOf db a with
            | none => JVal.nul | some j => JVal.str j.description)
        , ("applied_date", JVal.str (dateStr a.applied_at)) ]))⟩, db)

/-- `GET /api/users/me/job-applications` (server.js lines 401-432): same
auth shape as the applications route; the `WHERE j.employer_id = $1`
clause over the LEFT-JOINed job keeps only applications whose job exists
and belongs to the acting employer. -/
def usersMeJobApplications (secret : String) (now : Nat)
    (auth : Option (List HeaderPart)) (db : DB) : Response × DB :=
  match tokenPart auth with
  | none => (⟨401, msgBody "Unauthorized. No token provided."⟩, db)
  | some part =>
    match jwtVerify secret now part with
    | none =>
      (⟨500, msgBody "Server error fetching employer job applications."⟩, db)
    | some payload =>
      let uid := payload.user_id
      let pairs := db.applications.flatMap (fun a =>
        match jobOf db a with
        | none => []
        | some j => if j.employer_id == uid then [(a, j)] else [])
      let sorted := List.insertionSort
        (fun x y : Application × Job => y.1.applied_at ≤ x.1.applied_at) pairs
      (⟨200, JVal.arr (sorted.map (fun x => JVal.obj
        [ ("status", JVal.str x.1.status)
        , ("applicant_name", userNameJ db x.1.worker_id)
        , ("job_title", JVal.str x.2.title)
        , ("salary", JVal.num x.2.salary)
        , ("applied_date", JVal.str (dateStr x.1.applied_at)) ]))⟩, db)

/-- Case-insensitive substring test: `s ILIKE '%pat%'`, on character
lists. -/
def hasInfix (pat : List Char) : List Char → Bool
  | [] => pat.isEmpty
  | c :: rest => pat.isPrefixOf (c :: rest) || hasInfix pat rest

/-- SQL `s ILIKE '%q%'`. -/
def ilikeSub (s q : String) : Bool :=
  hasInfix q.toLower.toList s.toLower.toList

/-- `ORDER BY salary DESC` on jobs. -/
def salaryGe (a b : Job) : Prop := b.salary ≤ a.salary

instance : DecidableRel salaryGe := fun a b =>
  inferInstanceAs (Decidable (b.salary ≤ a.salary))

instance : IsTotal Job salaryGe := ⟨fun a b => le_total b.salary a.salary⟩

instance : IsTrans Job salaryGe :=
  ⟨fun _ _ _ hab hbc => le_trans hbc hab⟩

/-- `ORDER BY created_at DESC` on jobs. -/
def createdGe (a b : Job) : Prop := b.created_at ≤ a.created_at

instance : DecidableRel createdGe := fun a b =>
  inferInstanceAs (Decidable (b.created_at ≤ a.created_at))

instance : IsTotal Job createdGe := ⟨fun a b => le_total b.created_at a.created_at⟩

instance : IsTrans Job createdGe :=
  ⟨fun _ _ _ hab hbc => le_trans hbc hab⟩

/-- `WHERE job_status = 'Open'`. -/
def openJobs (db : DB) : List Job :=
  db.jobs.filter (fun j => j.job_status == "Open")

/-- Row set of `GET /api/jobs/top-salary`: Open jobs by salary descending,
`LIMIT 3` (server.js lines 141-156). -/
def topSalaryJobs (db : DB) : List Job :=
  (List.insertionSort salaryGe (openJobs db)).take 3

/-- Row set of `GET /api/jobs/newest`: Open jobs by creation time
descending, `LIMIT 3` (server.js lines 163-178). -/
def newestJobs (db : DB) : List Job :=
  (List.insertionSort createdGe (openJobs db)).take 3

/-- The projection `title, description, salary, job_type` used by both
3-row listing endpoints. -/
def jobCardJ (j : Job) : JVal :=
  JVal.obj
    [ ("title", JVal.str j.title)
    , ("description", JVal.str j.description)
    , ("salary", JVal.num j.salary)
    , ("job_type", JVal.str j.job_type) ]

/-- `GET /api/jobs/top-salary` handler. -/
def topSalaryHandler (db : DB) : Response × DB :=
  (⟨200, JVal.arr ((topSalaryJobs db).map jobCardJ)⟩, db)

/-- `GET /api/jobs/newest` handler. -/
def newestHandler (db : DB) : Response × DB :=
  (⟨200, JVal.arr ((newestJobs db).map jobCardJ)⟩, db)

/-- LEFT-JOINed `u.company` of a job's employer rendered for the search
rows. -/
def companyOfJ (db : DB) (employer_id : Nat) : JVal :=
  match (db.users.filter (fun u => u.user_id == employer_id)).head? with
  | none => JVal.nul
  | some u => jStrN u.company

/-- `GET /api/jobs/search` (server.js lines 186-229, the active variant):
a falsy `query` is answered 400 before any query is issued; otherwise
Open jobs whose title or description contains the query
case-insensitively, optionally filtered by `job_type`, sorted by salary
when `sort = 'salary'` and by creation time otherwise (`sort` defaults to
`'newest'` when absent). -/
def jobsSearch (query job_type sort : Option String) (db : DB) :
    Response × DB :=
  let sortVal := match sort with | none => "newest" | some s => s
  if falsyO query then
    (⟨400, msgBody "Search query is required."⟩, db)
  else
    let q := query.getD ""
    let base := db.jobs.filter (fun j =>
      (ilikeSub j.title q || ilikeSub j.description q)
        && j.job_status == "Open")
    let filtered :=
      if falsyO job_type then base
      else base.filter (fun j => j.job_type == job_type.getD "")
    let sorted :=
      if sortVal == "salary" then List.insertionSort salaryGe filtered
      else List.insertionSort createdGe filtered
    (⟨200, JVal.arr (sorted.map (fun j => JVal.obj
      [ ("title", JVal.str j.title)
      , ("salary", JVal.num j.salary)
      , ("description", JVal.str j.description)
      , ("company", companyOfJ db j.employer_id)
      , ("posted_date", JVal.str (dateStr j.created_at)) ]))⟩, db)

/-- `GET /` (server.js lines 22-24). -/
def rootHandler (db : DB) : Response × DB :=
  (⟨200, JVal.str "JustAI Jobs Backend is running"⟩, db)

/-- `GET /check-db` (server.js lines 27-35), non-throwing path: `SELECT
NOW()` and a success envelope. -/
def checkDb (now : Nat) (db : DB) : Response × DB :=
  (⟨200, JVal.obj
    [ ("status", JVal.str "success"), ("time", JVal.num now) ]⟩, db)

/-- `ORDER BY created_at DESC` on testimonials. -/
def testCreatedGe (a b : Testimonial) : Prop := b.created_at ≤ a.created_at

instance : DecidableRel testCreatedGe := fun a b =>
  inferInstanceAs (Decidable (b.created_at ≤ a.created_at))

/-- `GET /api/community/testimonials` (server.js lines 505-524): displayed
testimonials, newest first, `LIMIT 4`, LEFT-JOINed author fields. -/
def communityTestimonials (db : DB) : Response × DB :=
  let ts := (List.insertionSort testCreatedGe
    (db.testimonials.filter Testimonial.to_display)).take 4
  (⟨200, JVal.arr (ts.map (fun t => JVal.obj
    [ ("testimonial", JVal.str t.content)
    , ("user_name", userNameJ db t.user_id)
    , ("company_name", userCompanyJ db t.user_id) ]))⟩, db)

/-- `ORDER BY rating DESC, created_at DESC` on reviews. -/
def revTopGe (a b : Review) : Prop :=
  b.rating < a.rating ∨ (b.rating = a.rating ∧ b.created_at ≤ a.created_at)

instance : DecidableRel revTopGe := fun a b =>
  inferInstanceAs (Decidable (b.rating < a.rating
    ∨ (b.rating = a.rating ∧ b.created_at ≤ a.created_at)))

/-- `GET /api/community/reviews` (server.js lines 533-552): top 4 reviews
by rating then recency, LEFT-JOINed reviewer name. -/
def communityReviews (db : DB) : Response × DB :=
  let rs := (List.insertionSort revTopGe db.reviews).take 4
  (⟨200, JVal.arr (rs.map (fun r => JVal.obj
    [ ("review_body", JVal.str r.comment)
    , ("rating", JVal.num r.rating)
    , ("reviewer_name", userNameJ db r.reviewer_id)
    , ("review_date", JVal.str (dateStr r.created_at)) ]))⟩, db)

/-- Lookup of a key in a JSON object body (first occurrence, as JS
property access on the constructed object). -/
def lookupField (v : JVal) (k : String) : Option JVal :=
  match v with
  | JVal.obj l => (l.find? (fun p => p.1 == k)).map Prod.snd
  | _ => none

/-- The empty database, with the user-id sequence at 1. -/
def emptyDB : DB := ⟨[], [], [], [], [], [], [], 1⟩

/-- A sample open job. -/
def jobA : Job := ⟨1, 1, "Welder", "Weld things", 100, "Full-time", "Open", 5⟩

/-- A sample registered worker. -/
def userBob : User :=
  ⟨1, "Bob", "bob@x.com", "hunter2", "Worker", none, none, "Active",
    none, none, 0, 0⟩

/-- A sample populated database. -/
def dbSample : DB := ⟨[userBob], [jobA], [], [], [], [], [], 2⟩

/-- A token whose signature does not match the server secret "s". -/
def tokBad : Token :=
  ⟨⟨1, "bob@x.com", "Worker", 86400⟩,
    ("wrong", ⟨1, "bob@x.com", "Worker", 86400⟩)⟩

/-- C10: every GET endpoint of the service — `/`, `/check-db`,
`/api/jobs/top-salary`, `/api/jobs/newest`, `/api/jobs/search`,
`/api/users/me` and its sub-routes, `/api/community/testimonials`,
`/api/community/reviews` — issues only SELECT queries, so the database
state after any such request, on success and error paths alike, equals
the state before it. -/
theorem get_endpoints_preserve_db (db : DB) (secret : String) (now : Nat)
    (auth : Option (List HeaderPart)) (query job_type sort : Option String) :
    (rootHandler db).2 = db ∧ (checkDb now db).2 = db
    ∧ (topSalaryHandler db).2 = db ∧ (newestHandler db).2 = db
    ∧ (jobsSearch query job_type sort db).2 = db
    ∧ (usersMe secret now auth db).2 = db
    ∧ (usersMeReviews secret now auth db).2 = db
    ∧ (usersMeApplications secret now auth db).2 = db
    ∧ (usersMeJobApplications secret now auth db).2 = db
    ∧ (communityTestimonials db).2 = db
    ∧ (communityReviews db).2 = db := by
  refine ⟨rfl, rfl, rfl, rfl, ?_, ?_, ?_, ?_, ?_, rfl, rfl⟩
  · cases hq : falsyO query <;> simp [jobsSearch, hq]
  · cases auth with
    | none => rfl
    | some parts =>
      cases hg : parts.get? 1 with
      | none => simp only [usersMe, hg]
      | some part =>
        cases hv : jwtVerify secret now part with
        | none => simp only [usersMe, hg, hv]
        | some payload =>
          cases hu : (db.users.filter
              (fun u => u.user_id == payload.user_id)).head? with
          | none => simp only [usersMe, hg, hv, hu]
          | some u =>
            cases he : u.account_type == "Employer" <;>
              simp only [usersMe, hg, hv, hu, he, Bool.false_eq_true,
                if_false, if_true]
  · cases ha : authTok secret now auth with
    | error r => simp [usersMeReviews, ha]
    | ok payload => simp [usersMeReviews, ha]
  · cases htp : tokenPart auth with
    | none => simp [usersMeApplications, htp]
    | some part =>
      cases hv : jwtVerify secret now part with
      | none => simp [usersMeApplications, htp, hv]
      | some payload => simp [usersMeApplications, htp, hv]
  · cases htp : tokenPart auth with
    | none => simp [usersMeJobApplications, htp]
    | some part =>
      cases hv : jwtVerify secret now part with
      | none => simp [usersMeJobApplications, htp, hv]
      | some payload => simp [usersMeJobApplications, htp, hv]

/-- C6: `GET /api/jobs/top-salary` and `GET /api/jobs/newest` each return
at most 3 rows, every returned row comes from a Job with `job_status =
'Open'`, and the rows are ordered descending by salary, respectively by
`created_at`; the handlers' bodies are exactly the projections of these
row sets. -/
theorem job_listings_top3_open_sorted (db : DB) :
    (topSalaryJobs db).length ≤ 3
    ∧ (∀ j ∈ topSalaryJobs db, j ∈ db.jobs ∧ j.job_status = "Open")
    ∧ (topSalaryJobs db).Sorted salaryGe
    ∧ (topSalaryHandler db).1
        = ⟨200, JVal.arr ((topSalaryJobs db).map jobCardJ)⟩
    ∧ (newestJobs db).length ≤ 3
    ∧ (∀ j ∈ newestJobs db, j ∈ db.jobs ∧ j.job_status = "Open")
    ∧ (newestJobs db).Sorted createdGe
    ∧ (newestHandler db).1
        = ⟨200, JVal.arr ((newestJobs db).map jobCardJ)⟩ := by
  have hmem : ∀ j ∈ openJobs db, j ∈ db.jobs ∧ j.job_status = "Open" := by
    intro j hj
    have := List.mem_filter.mp hj
    refine ⟨this.1, ?_⟩
    simpa using this.2
  refine ⟨List.length_take_le 3 _, ?_, ?_, rfl,
    List.length_take_le 3 _, ?_, ?_, rfl⟩
  · intro j hj
    exact hmem j ((List.mem_insertionSort salaryGe).mp
      (List.take_subset 3 _ hj))
  · exact List.Pairwise.sublist (List.take_sublist 3 _)
      (List.sorted_insertionSort salaryGe (openJobs db))
  · intro j hj
    exact hmem j ((List.mem_insertionSort createdGe).mp
      (List.take_subset 3 _ hj))
  · exact List.Pairwise.sublist (List.take_sublist 3 _)
      (List.sorted_insertionSort createdGe (openJobs db))

/-- C4 counterexample: on the active `/api/jobs/search` handler, a request
with no `query` parameter is answered 400 ("Search query is required."),
an error response — not a successful 200 with an empty result set as the
claim states. -/
theorem jobsSearch_empty_query_cex :
    (jobsSearch none none none dbSample).1.status = 400
    ∧ (jobsSearch (some "") none none dbSample).1.status = 400
    ∧ (400 : Nat) ≠ 200 :=
  ⟨rfl, rfl, by decide⟩

/-- C4 (amended): for every database state, a `/api/jobs/search` request
whose `query` parameter is absent or empty is rejected with status 400
and message "Search query is required." before any SQL is issued, and
the database state is unchanged. -/
theorem jobsSearch_falsy_query_400 (query job_type sort : Option String)
    (db : DB) (h : falsyO query = true) :
    jobsSearch query job_type sort db
      = (⟨400, msgBody "Search query is required."⟩, db) := by
  unfold jobsSearch
  simp [h]

/-- Witness for the amended C4 at a concrete input. -/
theorem jobsSearch_falsy_query_400_witness :
    falsyO none = true
    ∧ jobsSearch none none none dbSample
        = (⟨400, msgBody "Search query is required."⟩, dbSample) :=
  ⟨rfl, jobsSearch_falsy_query_400 none none none dbSample rfl⟩

/-- C3: on one database state, a login with an email matching no user and
a login with an email matching a user but the wrong password both produce
status 400 with the byte-identical generic body
`{ message: "Invalid email or password." }`, so the two cases are
indistinguishable to the caller. -/
theorem login_no_user_enumeration (db : DB) (secret : String)
    (now1 now2 : Nat) (e1 p1 e2 p2 : Option String)
    (h1e : falsyO e1 = false) (h1p : falsyO p1 = false)
    (h2e : falsyO e2 = false) (h2p : falsyO p2 = false)
    (hnone : ∀ u ∈ db.users, u.email ≠ e1.getD "")
    (u : User)
    (hu : (db.users.filter (fun v => v.email == e2.getD "")).head? = some u)
    (hpw : u.password ≠ p2.getD "") :
    (login e1 p1 secret now1 db).1
      = ⟨400, msgBody "Invalid email or password."⟩
    ∧ (login e2 p2 secret now2 db).1
      = ⟨400, msgBody "Invalid email or password."⟩ := by
  constructor
  · have hfil : db.users.filter (fun v => v.email == e1.getD "") = [] := by
      apply List.filter_eq_nil_iff.mpr
      intro a ha
      simpa using hnone a ha
    simp [login, h1e, h1p, hfil]
  · have hbne : (u.password != p2.getD "") = true := by
      simpa using hpw
    unfold login
    rw [h2e, h2p]
    simp only [Bool.or_self, Bool.false_eq_true, if_false]
    rw [hu]
    simp only [hbne, if_true]

/-- Witness for C3 at a concrete state: unknown email vs. known email with
wrong password. -/
theorem login_no_user_enumeration_witness :
    (login (some "ghost@x.com") (some "pw") "s" 0 dbSample).1
      = ⟨400, msgBody "Invalid email or password."⟩
    ∧ (login (some "bob@x.com") (some "wrong") "s" 0 dbSample).1
      = ⟨400, msgBody "Invalid email or password."⟩ :=
  login_no_user_enumeration dbSample "s" 0 0
    (some "ghost@x.com") (some "pw") (some "bob@x.com") (some "wrong")
    rfl rfl rfl rfl
    (by intro u hu; simp [dbSample, userBob] at hu; subst hu; simp [userBob])
    userBob rfl (by decide)

/-- C9: every successful (status 200) login response carries a `user`
object whose keys are exactly `user_id, name, email, account_type,
profile_picture, rating, status, company` — in particular the stored
password, though selected by the login query, is never among them. -/
theorem login_success_user_keys (email password : Option String)
    (secret : String) (now : Nat) (db : DB)
    (h : (login email password secret now db).1.status = 200) :
    ∃ fields,
      lookupField (login email password secret now db).1.body "user"
        = some (JVal.obj fields)
      ∧ fields.map Prod.fst
          = ["user_id", "name", "email", "account_type", "profile_picture",
             "rating", "status", "company"]
      ∧ "password" ∉ fields.map Prod.fst := by
  unfold login at h ⊢
  revert h
  cases hc : (falsyO email || falsyO password) with
  | true =>
    intro h
    simp at h
  | false =>
    simp only [Bool.false_eq_true, if_false]
    cases hh : (db.users.filter (fun u => u.email == email.getD "")).head? with
    | none =>
      intro h
      simp at h
    | some dbUser =>
      dsimp only
      cases hp : (dbUser.password != password.getD "") with
      | true =>
        intro h
        simp at h
      | false =>
        intro _
        exact ⟨loginUserFields dbUser, rfl, rfl, by simp [loginUserFields]⟩

/-- Witness for C9: a concrete successful login. -/
theorem login_success_user_keys_witness :
    (login (some "bob@x.com") (some "hunter2") "s" 7 dbSample).1.status = 200
    ∧ ∃ fields,
        lookupField
          (login (some "bob@x.com") (some "hunter2") "s" 7 dbSample).1.body
          "user" = some (JVal.obj fields)
        ∧ fields.map Prod.fst
            = ["user_id", "name", "email", "account_type", "profile_picture",
               "rating", "status", "company"]
        ∧ "password" ∉ fields.map Prod.fst :=
  ⟨rfl, login_success_user_keys (some "bob@x.com") (some "hunter2") "s" 7
    dbSample rfl⟩

/-- C2: a registration that omits a required field for its account type,
or supplies an email already present in `Users`, is answered 400 and
inserts nothing: the database state is unchanged. -/
theorem register_invalid_400 (body : RegisterReq) (now : Nat) (db : DB)
    (h : falsyO body.name = true ∨ falsyO body.email = true
      ∨ falsyO body.password = true ∨ falsyO body.account_type = true
      ∨ (body.account_type = some "Employer"
          ∧ (falsyO body.role = true ∨ falsyO body.company = true))
      ∨ (∃ u ∈ db.users, u.email = body.email.getD "")) :
    (register body now db).1.status = 400 ∧ (register body now db).2 = db := by
  unfold register
  split
  · exact ⟨rfl, rfl⟩
  · split
    · exact ⟨rfl, rfl⟩
    · split
      · exact ⟨rfl, rfl⟩
      · exfalso
        rename_i h1 h2 h3
        rcases h with hf | hf | hf | hf | ⟨hat, hrc⟩ | ⟨u, hu, he⟩
        · exact h1 (by simp [hf])
        · exact h1 (by simp [hf])
        · exact h1 (by simp [hf])
        · exact h1 (by simp [hf])
        · refine h2 ?_
          simp only [hat, beq_self_eq_true, Bool.true_and]
          rcases hrc with hr | hr <;> simp [hr]
        · exact h3 (List.any_eq_true.mpr ⟨u, hu, by simp [he]⟩)

/-- Witness for C2: registering with Bob's already-taken email on the
sample state yields 400 and leaves the state unchanged. -/
theorem register_invalid_400_witness :
    (register ⟨some "Worker", some "Eve", some "bob@x.com", some "p",
        none, none⟩ 9 dbSample).1.status = 400
    ∧ (register ⟨some "Worker", some "Eve", some "bob@x.com", some "p",
        none, none⟩ 9 dbSample).2 = dbSample :=
  register_invalid_400 _ 9 dbSample
    (Or.inr (Or.inr (Or.inr (Or.inr (Or.inr
      ⟨userBob, by simp [dbSample], rfl⟩)))))

/-- C1: when the email matches no existing user and every field required
for the account type is supplied, registration returns 201 and inserts a
user with that email, that password and status "Active", and a login with
the same credentials on the resulting state returns 200. -/
theorem register_fresh_201_then_login_200
    (body : RegisterReq) (now now2 : Nat) (secret : String) (db : DB)
    (e pw : String)
    (hname : falsyO body.name = false)
    (hemail : body.email = some e) (hef : falsyO body.email = false)
    (hpass : body.password = some pw) (hpf : falsyO body.password = false)
    (hat : falsyO body.account_type = false)
    (hemp : body.account_type = some "Employer" →
      falsyO body.role = false ∧ falsyO body.company = false)
    (hfresh : ∀ u ∈ db.users, u.email ≠ e) :
    (register body now db).1.status = 201
    ∧ (∃ u ∈ (register body now db).2.users,
        u.email = e ∧ u.password = pw ∧ u.status = "Active")
    ∧ (login (some e) (some pw) secret now2
        (register body now db).2).1.status = 200 := by
  have hcond1 : (falsyO body.name || falsyO body.email || falsyO body.password
      || falsyO body.account_type) = false := by
    simp [hname, hef, hpf, hat]
  have hcond2 : ((body.account_type == some "Employer")
      && (falsyO body.role || falsyO body.company)) = false := by
    cases hc : body.account_type == some "Employer" with
    | false => simp
    | true =>
      have := hemp (by simpa using hc)
      simp [this.1, this.2]
  have hcond3 : (db.users.any fun u => u.email == body.email.getD "")
      = false := by
    rw [List.any_eq_false]
    intro u hu
    simp only [hemail, Option.getD_some, beq_iff_eq]
    exact hfresh u hu
  unfold register
  rw [hcond1, hcond2, hcond3]
  simp only [Bool.false_eq_true, if_false]
  refine ⟨trivial, ?_, ?_⟩
  · refine ⟨_, List.mem_append.mpr (Or.inr (List.mem_singleton.mpr rfl)),
      ?_, ?_, ?_⟩
    · simp [hemail]
    · simp [hpass]
    · rfl
  · have hfilold : db.users.filter (fun u => u.email == e) = [] :=
      List.filter_eq_nil_iff.mpr (fun a ha => by simpa using hfresh a ha)
    unfold login
    have he' : falsyO (some e) = false := hemail ▸ hef
    have hp' : falsyO (some pw) = false := hpass ▸ hpf
    rw [he', hp']
    simp only [Bool.or_self, Bool.false_eq_true, if_false, Option.getD_some,
      List.filter_append, hfilold, List.nil_append, List.filter_cons,
      List.filter_nil, hemail, beq_self_eq_true, if_true]
    simp [hpass]

/-- Witness for C1: the spec's end-to-end example (register Ana as a
Worker on an empty database, then log in with the same credentials). -/
theorem register_fresh_201_then_login_200_witness :
    (register ⟨some "Worker", some "Ana", some "ana@x.com", some "p",
        none, none⟩ 3 emptyDB).1.status = 201
    ∧ (∃ u ∈ (register ⟨some "Worker", some "Ana", some "ana@x.com",
        some "p", none, none⟩ 3 emptyDB).2.users,
        u.email = "ana@x.com" ∧ u.password = "p" ∧ u.status = "Active")
    ∧ (login (some "ana@x.com") (some "p") "s" 4
        (register ⟨some "Worker", some "Ana", some "ana@x.com", some "p",
          none, none⟩ 3 emptyDB).2).1.status = 200 :=
  register_fresh_201_then_login_200 _ 3 4 "s" emptyDB "ana@x.com" "p"
    rfl rfl rfl rfl rfl rfl
    (fun h => absurd h (by simp))
    (fun u hu => absurd hu (List.not_mem_nil u))

/-- C8: a valid, unexpired token whose decoded user id matches no `Users`
row makes `GET /api/users/me` respond 404. -/
theorem users_me_unknown_id_404
    (secret : String) (now : Nat) (db : DB) (t : Token) (p0 : HeaderPart)
    (hsig : t.sig = (secret, t.payload)) (hexp : now < t.payload.exp)
    (hnouser : ∀ u ∈ db.users, u.user_id ≠ t.payload.user_id) :
    (usersMe secret now (some [p0, HeaderPart.tok t]) db).1.status = 404 := by
  have hv : jwtVerify secret now (HeaderPart.tok t) = some t.payload := by
    simp only [jwtVerify]
    rw [if_pos ⟨hsig, hexp⟩]
  have hfil : db.users.filter (fun u => u.user_id == t.payload.user_id)
      = [] :=
    List.filter_eq_nil_iff.mpr (fun a ha => by simpa using hnouser a ha)
  unfold usersMe
  simp only [List.get?, hv, hfil, List.head?_nil]

/-- Witness for C8: a freshly signed token for an id absent from the
sample database. -/
theorem users_me_unknown_id_404_witness :
    ((jwtSign "s" 42 "x@x" "Worker" 0).sig
        = ("s", (jwtSign "s" 42 "x@x" "Worker" 0).payload))
    ∧ (usersMe "s" 5 (some [HeaderPart.junk "Bearer",
        HeaderPart.tok (jwtSign "s" 42 "x@x" "Worker" 0)])
        dbSample).1.status = 404 :=
  ⟨rfl, users_me_unknown_id_404 "s" 5 dbSample _ _ rfl (by decide)
    (by
      intro u hu
      simp only [dbSample, List.mem_singleton] at hu
      subst hu
      decide)⟩

/-- C7: a Worker whose id has no `Payments` rows gets a 200 dashboard
whose `total_hours_worked`, `total_earnings` and `pending_payment` are
all the number 0 (not null, not an error). -/
theorem worker_dashboard_zero_payments
    (secret : String) (now : Nat) (db : DB) (t : Token) (p0 : HeaderPart)
    (hsig : t.sig = (secret, t.payload)) (hexp : now < t.payload.exp)
    (u : User)
    (hu : (db.users.filter
        (fun v => v.user_id == t.payload.user_id)).head? = some u)
    (hworker : u.account_type = "Worker")
    (hnopay : db.payments.filter
        (fun p => p.worker_id == t.payload.user_id) = []) :
    (usersMe secret now (some [p0, HeaderPart.tok t]) db).1.status = 200
    ∧ lookupField (usersMe secret now (some [p0, HeaderPart.tok t]) db).1.body
        "total_hours_worked" = some (JVal.num 0)
    ∧ lookupField (usersMe secret now (some [p0, HeaderPart.tok t]) db).1.body
        "total_earnings" = some (JVal.num 0)
    ∧ lookupField (usersMe secret now (some [p0, HeaderPart.tok t]) db).1.body
        "pending_payment" = some (JVal.num 0) := by
  have hv : jwtVerify secret now (HeaderPart.tok t) = some t.payload := by
    simp only [jwtVerify]
    rw [if_pos ⟨hsig, hexp⟩]
  have hw : workerMetrics db t.payload.user_id = (0, 0, 0) := by
    unfold workerMetrics
    rw [hnopay]
    rfl
  have hne : (u.account_type == "Employer") = false := by
    simp [hworker]
  unfold usersMe
  simp only [List.get?, hv, hu, hne, Bool.false_eq_true, if_false, hw]
  refine ⟨?_, ?_, ?_, ?_⟩ <;> trivial

/-- Witness for C7: Bob, a Worker with no payments, with a valid token on
the sample database. -/
theorem worker_dashboard_zero_payments_witness :
    (usersMe "s" 5 (some [HeaderPart.junk "Bearer",
        HeaderPart.tok (jwtSign "s" 1 "bob@x.com" "Worker" 0)])
        dbSample).1.status = 200
    ∧ lookupField (usersMe "s" 5 (some [HeaderPart.junk "Bearer",
        HeaderPart.tok (jwtSign "s" 1 "bob@x.com" "Worker" 0)])
        dbSample).1.body "total_hours_worked" = some (JVal.num 0)
    ∧ lookupField (usersMe "s" 5 (some [HeaderPart.junk "Bearer",
        HeaderPart.tok (jwtSign "s" 1 "bob@x.com" "Worker" 0)])
        dbSample).1.body "total_earnings" = some (JVal.num 0)
    ∧ lookupField (usersMe "s" 5 (some [HeaderPart.junk "Bearer",
        HeaderPart.tok (jwtSign "s" 1 "bob@x.com" "Worker" 0)])
        dbSample).1.body "pending_payment" = some (JVal.num 0) :=
  worker_dashboard_zero_payments "s" 5 dbSample _ _ rfl (by decide)
    userBob rfl rfl rfl

/-- C5 counterexample: a present bearer token failing the signature check
makes `GET /api/users/me` and `GET /api/users/me/applications` respond
500 — their inline try/catch swallows the `jwt.verify` error — not 403 as
the claim states for every protected route. -/
theorem protected_routes_bad_token_cex :
    (usersMe "s" 5 (some [HeaderPart.junk "Bearer", HeaderPart.tok tokBad])
      dbSample).1.status = 500
    ∧ (usersMeApplications "s" 5 (some [HeaderPart.junk "Bearer",
        HeaderPart.tok tokBad]) dbSample).1.status = 500
    ∧ (500 : Nat) ≠ 403 :=
  ⟨rfl, rfl, by decide⟩

/-- C5 (amended): with no Authorization header, all three protected routes
respond 401; with a present but invalid (malformed, forged or expired)
bearer token, `/api/users/me/reviews` — the route using the
`authenticateToken` middleware — responds 403 while `/api/users/me` and
`/api/users/me/applications` respond 500; in every such case the response
is independent of the database state, so no handler database logic runs. -/
theorem auth_gate_statuses
    (secret : String) (now : Nat) (parts : List HeaderPart)
    (part : HeaderPart) (db db' : DB)
    (hpart : parts.get? 1 = some part)
    (hnf : falsyPart part = false)
    (hbad : jwtVerify secret now part = none) :
    ((usersMe secret now none db).1.status = 401
      ∧ (usersMeReviews secret now none db).1.status = 401
      ∧ (usersMeApplications secret now none db).1.status = 401)
    ∧ ((usersMe secret now (some parts) db).1.status = 500
      ∧ (usersMeReviews secret now (some parts) db).1.status = 403
      ∧ (usersMeApplications secret now (some parts) db).1.status = 500)
    ∧ ((usersMe secret now none db).1 = (usersMe secret now none db').1
      ∧ (usersMeReviews secret now none db).1
          = (usersMeReviews secret now none db').1
      ∧ (usersMeApplications secret now none db).1
          = (usersMeApplications secret now none db').1
      ∧ (usersMe secret now (some parts) db).1
          = (usersMe secret now (some parts) db').1
      ∧ (usersMeReviews secret now (some parts) db).1
          = (usersMeReviews secret now (some parts) db').1
      ∧ (usersMeApplications secret now (some parts) db).1
          = (usersMeApplications secret now (some parts) db').1) := by
  have htp : tokenPart (some parts) = some part := by
    simp only [tokenPart, hpart, hnf, Bool.false_eq_true, if_false]
  refine ⟨⟨rfl, rfl, rfl⟩, ⟨?_, ?_, ?_⟩, rfl, rfl, rfl, ?_, ?_, ?_⟩
  · simp only [usersMe, hpart, hbad]
  · simp only [usersMeReviews, authTok, htp, hbad]
  · simp only [usersMeApplications, htp, hbad]
  · simp only [usersMe, hpart, hbad]
  · simp only [usersMeReviews, authTok, htp, hbad]
  · simp only [usersMeApplications, htp, hbad]

/-- Witness for the amended C5 at a concrete forged token. -/
theorem auth_gate_statuses_witness :
    ((usersMe "s" 5 none dbSample).1.status = 401
      ∧ (usersMeReviews "s" 5 none dbSample).1.status = 401
      ∧ (usersMeApplications "s" 5 none dbSample).1.status = 401)
    ∧ ((usersMe "s" 5 (some [HeaderPart.junk "Bearer",
          HeaderPart.tok tokBad]) dbSample).1.status = 500
      ∧ (usersMeReviews "s" 5 (some [HeaderPart.junk "Bearer",
          HeaderPart.tok tokBad]) dbSample).1.status = 403
      ∧ (usersMeApplications "s" 5 (some [HeaderPart.junk "Bearer",
          HeaderPart.tok tokBad]) dbSample).1.status = 500)
    ∧ ((usersMe "s" 5 none dbSample).1 = (usersMe "s" 5 none emptyDB).1
      ∧ (usersMeReviews "s" 5 none dbSample).1
          = (usersMeReviews "s" 5 none emptyDB).1
      ∧ (usersMeApplications "s" 5 none dbSample).1
          = (usersMeApplications "s" 5 none emptyDB).1
      ∧ (usersMe "s" 5 (some [HeaderPart.junk "Bearer",
          HeaderPart.tok tokBad]) dbSample).1
          = (usersMe "s" 5 (some [HeaderPart.junk "Bearer",
            HeaderPart.tok tokBad]) emptyDB).1
      ∧ (usersMeReviews "s" 5 (some [HeaderPart.junk "Bearer",
          HeaderPart.tok tokBad]) dbSample).1
          = (usersMeReviews "s" 5 (some [HeaderPart.junk "Bearer",
            HeaderPart.tok tokBad]) emptyDB).1
      ∧ (usersMeApplications "s" 5 (some [HeaderPart.junk "Bearer",
          HeaderPart.tok tokBad]) dbSample).1
          = (usersMeApplications "s" 5 (some [HeaderPart.junk "Bearer",
            HeaderPart.tok tokBad]) emptyDB).1) :=
  auth_gate_statuses "s" 5 [HeaderPart.junk "Bearer", HeaderPart.tok tokBad]
    (HeaderPart.tok tokBad) dbSample emptyDB rfl rfl rfl
